import Mathlib

/-!
Verification of the Googly-Eyes federation core (`src/googly_eyes/`):
the action model (`models.py`), the transport contract (`transport.py`),
the bot contract (`bot_interface.py`) and the federation router (`main.py`),
shallowly embedded in Lean 4.

Python objects are modelled as explicit structures, Python exceptions as
`Except PyError`, and the dynamic values that can sit in a dataclass slot
(a `datetime` after construction, a plain string after deserialization)
as the small dynamic type `PyVal`.
-/

/-- Python errors raised by the embedded code.  The string payloads are the
message strings from the source. -/
inductive PyError
  | typeError
  | keyError
  | valueError (msg : String)
  | runtimeError (msg : String)
  | attributeError
deriving DecidableEq, Repr

deriving instance DecidableEq for Except

/-- Python `datetime` values, modelled by their ISO-8601 rendering
(`datetime.isoformat` is injective on datetimes, so value equality of
datetimes coincides with equality of the rendering). -/
structure DateTime where
  iso : String
deriving DecidableEq, Repr

/-- `models.py` line 8: `class ModerationActionType(Enum)`. -/
inductive ModerationActionType
  | BAN
  | KICK
  | WARN
  | TIMEOUT
  | TRUST
deriving DecidableEq, Repr

/-- Python `ModerationActionType.name`. -/
def ModerationActionType.name : ModerationActionType → String
  | .BAN => "BAN"
  | .KICK => "KICK"
  | .WARN => "WARN"
  | .TIMEOUT => "TIMEOUT"
  | .TRUST => "TRUST"

/-- Python `ModerationActionType[s]` (enum lookup by member name);
`Option.none` models the `KeyError` raised on any other string. -/
def ModerationActionType.fromName : String → Option ModerationActionType
  | "BAN" => some .BAN
  | "KICK" => some .KICK
  | "WARN" => some .WARN
  | "TIMEOUT" => some .TIMEOUT
  | "TRUST" => some .TRUST
  | _ => none

/-- `models.py` line 16: `class ActionReasonType(Enum)`. -/
inductive ActionReasonType
  | SPAM
  | HARASSMENT
  | INAPPROPRIATE_CONTENT
  | RULE_VIOLATION
  | ABUSE
  | DISRUPTIVE_BEHAVIOR
  | OTHER
deriving DecidableEq, Repr

/-- Python `ActionReasonType.name`. -/
def ActionReasonType.name : ActionReasonType → String
  | .SPAM => "SPAM"
  | .HARASSMENT => "HARASSMENT"
  | .INAPPROPRIATE_CONTENT => "INAPPROPRIATE_CONTENT"
  | .RULE_VIOLATION => "RULE_VIOLATION"
  | .ABUSE => "ABUSE"
  | .DISRUPTIVE_BEHAVIOR => "DISRUPTIVE_BEHAVIOR"
  | .OTHER => "OTHER"

/-- Python `ActionReasonType[s]` (enum lookup by member name). -/
def ActionReasonType.fromName : String → Option ActionReasonType
  | "SPAM" => some .SPAM
  | "HARASSMENT" => some .HARASSMENT
  | "INAPPROPRIATE_CONTENT" => some .INAPPROPRIATE_CONTENT
  | "RULE_VIOLATION" => some .RULE_VIOLATION
  | "ABUSE" => some .ABUSE
  | "DISRUPTIVE_BEHAVIOR" => some .DISRUPTIVE_BEHAVIOR
  | "OTHER" => some .OTHER
  | _ => none

/-- Dynamic Python values that can occupy a dataclass slot or a JSON
dictionary entry in the embedded code.  Cross-constructor equality is
`false`, matching Python (`datetime == str` is `False`, etc.). -/
inductive PyVal
  | str (s : String)
  | int (n : Int)
  | bool (b : Bool)
  | pynone
  | dt (d : DateTime)
  | enumAT (t : ModerationActionType)
  | enumRT (r : ActionReasonType)
deriving DecidableEq, Repr

/-- The `datetime.now(timezone.utc)` evaluated ONCE when `models.py`
line 35 is executed at class-definition time: every dataclass
construction that omits `action_timestamp` receives this same value. -/
def classDefaultTimestamp : DateTime := ⟨"2025-06-01T12:00:00+00:00"⟩

/-- `models.py` line 26: the `@dataclass BaseModerationAction` object state.
`cls` records the concrete subclass (the dataclass-generated `__eq__`
requires `other.__class__ is self.__class__` before comparing fields).
The subclasses `BanAction` .. `TrustAction` are NOT decorated with
`@dataclass`, so their annotated kind-specific attributes (`can_appeal`,
`timeout_duration`) are inert class-level annotations: they are not init
parameters, not compared by `__eq__`, and not serialized; the instances
carry only the base fields below. -/
structure BaseModerationAction where
  cls : ModerationActionType
  action_type : ModerationActionType
  target_user_id : PyVal
  action_moderator_id : PyVal
  action_reason : PyVal
  action_reason_type : PyVal
  action_context : PyVal
  action_timestamp : PyVal
deriving DecidableEq, Repr

/-- Keyword-argument dictionaries (Python dicts have unique keys; lookup
takes the first occurrence). -/
def kwLookup (k : String) : List (String × PyVal) → Option PyVal
  | [] => none
  | kv :: rest => if kv.1 = k then some kv.2 else kwLookup k rest

/-- Python `dict.pop(k, default)` key removal: the dictionary without `k`. -/
def popKey (k : String) (d : List (String × PyVal)) : List (String × PyVal) :=
  d.filter (fun kv => !(kv.1 == k))

/-- The keyword parameters accepted by the (inherited) dataclass
`BaseModerationAction.__init__`. -/
def baseInitKeys : List String :=
  ["target_user_id", "action_moderator_id", "action_reason",
   "action_reason_type", "action_context", "action_timestamp"]

/-- The dataclass-generated `BaseModerationAction.__init__`, which is the
constructor every subclass inherits (none of them is itself a
`@dataclass`, so no subclass adds init parameters).  An unexpected
keyword or a missing required keyword raises `TypeError`;
`action_context` defaults to `None` and `action_timestamp` defaults to
the class-definition-time timestamp. -/
def baseInit (cls atype : ModerationActionType) (kwargs : List (String × PyVal)) :
    Except PyError BaseModerationAction :=
  if kwargs.all (fun kv => baseInitKeys.contains kv.1) then
    match kwLookup "target_user_id" kwargs, kwLookup "action_moderator_id" kwargs,
          kwLookup "action_reason" kwargs, kwLookup "action_reason_type" kwargs with
    | some tu, some mo, some re, some rt =>
        .ok { cls := cls, action_type := atype,
              target_user_id := tu, action_moderator_id := mo,
              action_reason := re, action_reason_type := rt,
              action_context := (kwLookup "action_context" kwargs).getD PyVal.pynone,
              action_timestamp :=
                (kwLookup "action_timestamp" kwargs).getD (PyVal.dt classDefaultTimestamp) }
    | _, _, _, _ => .error .typeError
  else .error .typeError

/-- `models.py` line 76: `ActionFactory.create_action`.  Each branch calls
the corresponding subclass constructor, and every subclass uses the
inherited base `__init__` (see `baseInit`).  The `else: raise ValueError`
branch of the source is unreachable for an argument of the enum type,
which has exactly the five dispatched members. -/
def ActionFactory.create_action (action_type : ModerationActionType)
    (kwargs : List (String × PyVal)) : Except PyError BaseModerationAction :=
  match action_type with
  | .BAN => baseInit .BAN action_type kwargs
  | .KICK => baseInit .KICK action_type kwargs
  | .WARN => baseInit .WARN action_type kwargs
  | .TIMEOUT => baseInit .TIMEOUT action_type kwargs
  | .TRUST => baseInit .TRUST action_type kwargs

/-- Python `ModerationActionType[v]` applied to a dynamic value: only a
string naming a member succeeds; everything else raises `KeyError`. -/
def enumATofVal : PyVal → Option ModerationActionType
  | .str s => ModerationActionType.fromName s
  | _ => none

/-- Python `ActionReasonType[v]` applied to a dynamic value. -/
def enumRTofVal : PyVal → Option ActionReasonType
  | .str s => ActionReasonType.fromName s
  | _ => none

/-- `models.py` line 100: `ActionFactory.from_dict`.  Pops `action_type`
and `action_reason_type` (default `""`, so absence raises `KeyError` from
the enum lookup), converts them to enums, and forwards everything else —
including the still-ISO-string `action_timestamp` — as keyword arguments
to `create_action`. -/
def ActionFactory.from_dict (data : List (String × PyVal)) :
    Except PyError BaseModerationAction :=
  match enumATofVal ((kwLookup "action_type" data).getD (PyVal.str "")) with
  | none => .error .keyError
  | some atype =>
    let d1 := popKey "action_type" data
    match enumRTofVal ((kwLookup "action_reason_type" d1).getD (PyVal.str "")) with
    | none => .error .keyError
    | some rt =>
        ActionFactory.create_action atype
          (("action_reason_type", PyVal.enumRT rt) :: popKey "action_reason_type" d1)

/-- `models.py` line 37: the dictionary built by
`BaseModerationAction.to_json` before `json.dumps`.  Accessing `.name` on
a non-enum reason slot or `.isoformat()` on a non-datetime timestamp slot
raises `AttributeError`. -/
def BaseModerationAction.to_json (a : BaseModerationAction) :
    Except PyError (List (String × PyVal)) :=
  match a.action_reason_type, a.action_timestamp with
  | PyVal.enumRT rt, PyVal.dt ts =>
      .ok [("action_type", PyVal.str a.action_type.name),
           ("target_user_id", a.target_user_id),
           ("action_moderator_id", a.action_moderator_id),
           ("action_reason", a.action_reason),
           ("action_reason_type", PyVal.str rt.name),
           ("action_context", a.action_context),
           ("action_timestamp", PyVal.str ts.iso)]
  | _, _ => .error .attributeError

/-- `ActionFactory.from_json(a.to_json())`: `json.dumps` followed by
`json.loads` is the identity on these dictionaries of strings and nulls,
so the composition reduces to `from_dict` applied to the dictionary that
`to_json` builds. -/
def roundTripAction (a : BaseModerationAction) : Except PyError BaseModerationAction :=
  match a.to_json with
  | .error e => .error e
  | .ok d => ActionFactory.from_dict d

/-- The `uuid4().hex` evaluated ONCE when `models.py` line 114 is executed
at class-definition time: every `FederatedActionMessage` construction
that omits `message_id` receives this same hex string. -/
def classDefaultMessageId : String := "7f3b9c2d41aa4e08b5d6a1c3e9f07214"

/-- The `datetime.now(timezone.utc)` evaluated once at `models.py`
line 115 (class-definition time). -/
def classDefaultMessageTimestamp : DateTime := ⟨"2025-06-01T12:00:00+00:01"⟩

/-- `models.py` line 109: the `@dataclass FederatedActionMessage`. -/
structure FederatedActionMessage where
  action : BaseModerationAction
  action_guild_id : String
  message_id : String
  message_timestamp : DateTime
deriving DecidableEq, Repr

/-- The dataclass constructor `FederatedActionMessage(action=..,
action_guild_id=..)` with both defaulted fields omitted: the defaults
are the class-definition-time values. -/
def FederatedActionMessage.mkDefault (a : BaseModerationAction)
    (guild : String) : FederatedActionMessage :=
  { action := a, action_guild_id := guild,
    message_id := classDefaultMessageId,
    message_timestamp := classDefaultMessageTimestamp }

/-- `transport.py` line 11: `class MessageTransportFeatures(Flag)` with
members `NONE = 0`, `SEND = 1`, `RECEIVE = 2`, `SEND_RECEIVE = 3`.  The
flag over the two bits is modelled as a pair of booleans; bitwise `&`,
`|`, truthiness and `in` translate pointwise. -/
structure MessageTransportFeatures where
  send : Bool
  receive : Bool
deriving DecidableEq, Repr

/-- Flag member `NONE` (value 0). -/
def MessageTransportFeatures.NONE : MessageTransportFeatures := ⟨false, false⟩

/-- Flag member `SEND` (value 1). -/
def MessageTransportFeatures.SEND : MessageTransportFeatures := ⟨true, false⟩

/-- Flag member `RECEIVE` (value 2). -/
def MessageTransportFeatures.RECEIVE : MessageTransportFeatures := ⟨false, true⟩

/-- Flag member `SEND_RECEIVE` (value 3). -/
def MessageTransportFeatures.SEND_RECEIVE : MessageTransportFeatures := ⟨true, true⟩

/-- Python bitwise `a & b` on the flag. -/
def MessageTransportFeatures.land (a b : MessageTransportFeatures) :
    MessageTransportFeatures :=
  ⟨a.send && b.send, a.receive && b.receive⟩

/-- Python bitwise `a | b` on the flag. -/
def MessageTransportFeatures.lor (a b : MessageTransportFeatures) :
    MessageTransportFeatures :=
  ⟨a.send || b.send, a.receive || b.receive⟩

/-- Python truthiness of a flag value (`bool(f)` is `f.value != 0`). -/
def MessageTransportFeatures.toBool (f : MessageTransportFeatures) : Bool :=
  f.send || f.receive

/-- Python `f in g` on `Flag` values: `f.value & g.value == f.value`. -/
def MessageTransportFeatures.mem (f g : MessageTransportFeatures) : Bool :=
  f.land g == f

/-- `transport.py` line 88: `MessageTransport.feature_is_available`, which
is `feature in self._available_features`. -/
def feature_is_available (available feature : MessageTransportFeatures) : Bool :=
  feature.mem available

/-- Lifecycle-relevant state of a `MessageTransport` or `BotInterface`
object, together with counters of how many times the adapter-specific
`_start` and `_stop` procedures have been invoked (for observing side
effects). -/
structure LifecycleState where
  is_running : Bool
  start_calls : Nat
  stop_calls : Nat
deriving DecidableEq, Repr

/-- Python `not x` applied to the value returned by a `_stop` procedure
whose declared return type is `None` (`not None` is `True`); a `Bool`
return is negated. -/
def pyNot : Option Bool → Bool
  | Option.none => true
  | Option.some b => !b

/-- `transport.py` line 41: `MessageTransport.start`.  `startResult` is
the value returned by the adapter-specific `_start`; the event-loop
capture on line 45 has no bearing on lifecycle state and is omitted.
Returns the Python return value paired with the new object state. -/
def MessageTransport.start (startResult : Bool) (s : LifecycleState) :
    Bool × LifecycleState :=
  if s.is_running then (s.is_running, s)
  else
    let s' : LifecycleState :=
      { s with is_running := startResult, start_calls := s.start_calls + 1 }
    (s'.is_running, s')

/-- `transport.py` line 53: `MessageTransport.stop`, which executes
`self._is_running = not self._stop()` when running.  `stopResult` is the
value returned by the adapter-specific `_stop`, whose declared return
type is `None` (both concrete transports, `MockMessageTransport` and
`MQTTTransport`, indeed return `None`). -/
def MessageTransport.stop (stopResult : Option Bool) (s : LifecycleState) :
    Bool × LifecycleState :=
  if s.is_running then
    let s' : LifecycleState :=
      { s with is_running := pyNot stopResult, stop_calls := s.stop_calls + 1 }
    (!s'.is_running, s')
  else (!s.is_running, s)

/-- `bot_interface.py` line 30: `BotInterface.start` (the await of the
adapter `_start` is a plain call in this sequential embedding). -/
def BotInterface.start (startResult : Bool) (s : LifecycleState) :
    Bool × LifecycleState :=
  if s.is_running then (s.is_running, s)
  else
    let s' : LifecycleState :=
      { s with is_running := startResult, start_calls := s.start_calls + 1 }
    (s'.is_running, s')

/-- `bot_interface.py` line 42: `BotInterface.stop`, which executes
`self._is_running = not await self._stop()`; the bot `_stop` is declared
and implemented to return a `bool`. -/
def BotInterface.stop (stopResult : Bool) (s : LifecycleState) :
    Bool × LifecycleState :=
  if s.is_running then
    let s' : LifecycleState :=
      { s with is_running := !stopResult, stop_calls := s.stop_calls + 1 }
    (!s'.is_running, s')
  else (!s.is_running, s)

/-- `transport.py` line 63: `MessageTransport.send`.  The argument is
typed `FederatedActionMessage`, so the `isinstance` guard on line 65
always passes in this embedding; the remaining behavior is the running
check followed by delegation to the adapter `_send_message`, modelled by
the `publish` parameter. -/
def MessageTransport.send (publish : FederatedActionMessage → Bool)
    (is_running : Bool) (msg : FederatedActionMessage) : Except PyError Bool :=
  if !is_running then .error (.runtimeError "Transport system is not running.")
  else .ok (publish msg)

/-- Receive-side state of a `MessageTransport`: the `_receive_callback`
slot (callbacks identified by a numeric object id, `None` initially) and
the `_event_loop` attribute, which exists only after `start()` ran. -/
structure ReceiverState where
  receive_callback : Option Nat
  event_loop : Option Unit
deriving DecidableEq, Repr

/-- A delivery scheduled on the event loop: `create_task` of the callback
applied to the message (and the transport self-reference). -/
inductive DeliveryEvent
  | scheduled (cb : Nat) (msg : FederatedActionMessage)
deriving DecidableEq, Repr

/-- `transport.py` line 81: `MessageTransport._message_received`.  With a
callback set it schedules `callback(message, self)` on the captured event
loop (an `AttributeError` if the transport was never started); with no
callback set it raises `ValueError`. -/
def MessageTransport.message_received (s : ReceiverState)
    (msg : FederatedActionMessage) : Except PyError (List DeliveryEvent) :=
  match s.receive_callback with
  | Option.some cb =>
      match s.event_loop with
      | Option.some _ => .ok [DeliveryEvent.scheduled cb msg]
      | Option.none => .error .attributeError
  | Option.none => .error (.valueError "Receive callback not set.")

/-- `transport.py` line 132: the `@dataclass EnabledMessageTransport`
state: the administrative `_enabled` flag, the `_enabled_features`
subset, plus the relevant state of the wrapped `MessageTransport` (its
fixed `_available_features` and its `_is_running`). -/
structure EnabledMessageTransport where
  enabled : Bool
  enabled_features : MessageTransportFeatures
  available : MessageTransportFeatures
  t_running : Bool
deriving DecidableEq, Repr

/-- `transport.py` line 140: `EnabledMessageTransport.send`: raises
unless `_enabled` and `_enabled_features & SEND` is truthy, then
delegates to `MessageTransport.send`. -/
def EnabledMessageTransport.send (publish : FederatedActionMessage → Bool)
    (s : EnabledMessageTransport) (msg : FederatedActionMessage) :
    Except PyError Bool :=
  if !s.enabled || !(s.enabled_features.land MessageTransportFeatures.SEND).toBool then
    .error (.runtimeError "Transport is not enabled for sending.")
  else MessageTransport.send publish s.t_running msg

/-- `transport.py` line 181: `EnabledMessageTransport.enable_feature`.
Returns the (possibly unchanged) object state together with the raised
error, if any: on an unavailable feature the `ValueError` is raised
before any mutation. -/
def EnabledMessageTransport.enable_feature (s : EnabledMessageTransport)
    (f : MessageTransportFeatures) : EnabledMessageTransport × Option PyError :=
  if feature_is_available s.available f then
    ({ s with enabled_features := s.enabled_features.lor f }, Option.none)
  else (s, Option.some (.valueError "Feature not available in transport."))

/-- A transport registered with the router (`GooglyEyesInstance._transports`
entry): a distinguishing object id, the `EnabledMessageTransport` state,
and the boolean result its adapter `_send_message` returns (the router
ignores this result). -/
structure RegisteredTransport where
  tid : Nat
  emt : EnabledMessageTransport
  publishResult : Bool
deriving DecidableEq, Repr

/-- A bot registered with the router (`GooglyEyesInstance._bots` entry):
`id` models Python object identity (the `bot != source` comparison uses
default object identity, and distinct bot objects are never identical),
`name` is `_config.name`, and `running` is the `running` property. -/
structure BotRegistration where
  id : Nat
  name : String
  running : Bool
deriving DecidableEq, Repr

/-- One observable call the router makes while broadcasting: a
`transport.send` of a federated message, or a `bot.do_action` call (the
`propogate` spelling follows the source). -/
inductive BroadcastEvent
  | sendT (tid : Nat) (msg : FederatedActionMessage)
  | doAction (botId : Nat) (action : BaseModerationAction) (propogate : Bool)
deriving DecidableEq, Repr

/-- Whether an event is a transport send. -/
def BroadcastEvent.isSend : BroadcastEvent → Bool
  | .sendT _ _ => true
  | .doAction _ _ _ => false

/-- Occurrence count of an event in a trace. -/
def countEv (e : BroadcastEvent) : List BroadcastEvent → Nat
  | [] => 0
  | x :: xs => (if x = e then 1 else 0) + countEv e xs

/-- `main.py` lines 36-39, the transport half of `handle_bot_action`: for
each registered transport, if `transport.is_enabled and SEND in
transport.enabled_features`, call `transport.send(FederatedActionMessage(
action=action, action_guild_id=source._config.name))` (defaulted
`message_id` and `message_timestamp`).  An exception raised by a send
propagates and aborts the whole handler; a `False` send result is
ignored. -/
def handleBotActionSends (action : BaseModerationAction) (guild : String) :
    List RegisteredTransport → Except PyError (List BroadcastEvent)
  | [] => .ok []
  | t :: ts =>
    if t.emt.enabled &&
        MessageTransportFeatures.mem MessageTransportFeatures.SEND t.emt.enabled_features then
      match EnabledMessageTransport.send (fun _ => t.publishResult) t.emt
          (FederatedActionMessage.mkDefault action guild) with
      | .error e => .error e
      | .ok _ =>
        match handleBotActionSends action guild ts with
        | .error e => .error e
        | .ok rest =>
            .ok (BroadcastEvent.sendT t.tid (FederatedActionMessage.mkDefault action guild)
              :: rest)
    else handleBotActionSends action guild ts

/-- `main.py` lines 40-43, the bot half of `handle_bot_action`: for each
registered bot, if `bot.running and bot != source`, call
`bot.do_action(action, propogate=False)`. -/
def handleBotActionBots (action : BaseModerationAction) (source : BotRegistration) :
    List BotRegistration → List BroadcastEvent
  | [] => []
  | b :: bs =>
    if b.running && !(b.id == source.id) then
      BroadcastEvent.doAction b.id action false :: handleBotActionBots action source bs
    else handleBotActionBots action source bs

/-- `main.py` line 33: `GooglyEyesInstance.handle_bot_action`, as the trace
of calls it performs: all transport sends (in registration order), then
all bot re-invocations (in registration order). -/
def GooglyEyesInstance.handle_bot_action (transports : List RegisteredTransport)
    (bots : List BotRegistration) (source : BotRegistration)
    (action : BaseModerationAction) : Except PyError (List BroadcastEvent) :=
  match handleBotActionSends action source.name transports with
  | .error e => .error e
  | .ok sends => .ok (sends ++ handleBotActionBots action source bots)

/-- `main.py` line 61: `GooglyEyesInstance.handle_transport_message`: for
each registered bot, if `bot.running`, call
`bot.do_action(message.action, propogate=False)`; nothing is sent to any
transport. -/
def GooglyEyesInstance.handle_transport_message (bots : List BotRegistration)
    (message : FederatedActionMessage) : List BroadcastEvent :=
  match bots with
  | [] => []
  | b :: bs =>
    if b.running then
      BroadcastEvent.doAction b.id message.action false
        :: GooglyEyesInstance.handle_transport_message bs message
    else GooglyEyesInstance.handle_transport_message bs message

/-- Result of a successful `add_transport` call: the stored
`EnabledMessageTransport` state and whether the router's
`handle_transport_message` was wired as the raw transport's receive
callback. -/
structure AddedTransport where
  emt : EnabledMessageTransport
  receive_callback_set : Bool
deriving DecidableEq, Repr

/-- `main.py` line 46: `GooglyEyesInstance.add_transport`, for an adapter
advertising `available`.  The first statement is `if not
isinstance(enabled_features, MessageTransportFeatures): raise
ValueError`, so the `None` default is rejected up front and the later
`if enabled_features is None:` branch (line 54) is dead.  Otherwise the
transport is constructed, `set_receive_callback(self.
handle_transport_message)` is called unconditionally on the raw
transport, the wrapper is created with dataclass defaults
(`_enabled=False`, `_enabled_features=NONE`), `enable_feature` runs (its
`ValueError` propagates), the wrapper is enabled when `enabled` is true,
and the entry is appended. -/
def GooglyEyesInstance.add_transport (available : MessageTransportFeatures)
    (enabled_features : Option MessageTransportFeatures) (enabled : Bool) :
    Except PyError AddedTransport :=
  match enabled_features with
  | Option.none => .error (.valueError "Invalid features type.")
  | Option.some f =>
    let emt0 : EnabledMessageTransport :=
      { enabled := false, enabled_features := MessageTransportFeatures.NONE,
        available := available, t_running := false }
    match EnabledMessageTransport.enable_feature emt0 f with
    | (_, Option.some e) => .error e
    | (emt1, Option.none) =>
        .ok { emt := if enabled then { emt1 with enabled := true } else emt1,
              receive_callback_set := true }

/-- Keyword arguments for a concrete WARN action (all required base
fields supplied, no optional ones). -/
def demoWarnKwargs : List (String × PyVal) :=
  [("target_user_id", PyVal.str "U1"), ("action_moderator_id", PyVal.str "M1"),
   ("action_reason", PyVal.str "spam"),
   ("action_reason_type", PyVal.enumRT ActionReasonType.SPAM)]

/-- The WARN action `ActionFactory.create_action` builds from
`demoWarnKwargs`. -/
def demoWarnAction : BaseModerationAction :=
  { cls := ModerationActionType.WARN, action_type := ModerationActionType.WARN,
    target_user_id := PyVal.str "U1", action_moderator_id := PyVal.str "M1",
    action_reason := PyVal.str "spam",
    action_reason_type := PyVal.enumRT ActionReasonType.SPAM,
    action_context := PyVal.pynone,
    action_timestamp := PyVal.dt classDefaultTimestamp }

/-- A concrete federated message wrapping the demo action. -/
def demoMsg : FederatedActionMessage :=
  FederatedActionMessage.mkDefault demoWarnAction "G1"

/-- Counting distributes over trace concatenation. -/
theorem countEv_append (e : BroadcastEvent) (l1 l2 : List BroadcastEvent) :
    countEv e (l1 ++ l2) = countEv e l1 + countEv e l2 := by
  induction l1 with
  | nil => simp [countEv]
  | cons x xs ih => simp [countEv, ih]; omega

/-- A trace of send events contains no `do_action` calls. -/
theorem countEv_doAction_zero_of_isSend (i : Nat) (a : BaseModerationAction)
    (p : Bool) (l : List BroadcastEvent) (h : ∀ x ∈ l, x.isSend = true) :
    countEv (BroadcastEvent.doAction i a p) l = 0 := by
  induction l with
  | nil => rfl
  | cons x xs ih =>
    have hx := h x (by simp)
    have hxs : ∀ y ∈ xs, y.isSend = true := fun y hy => h y (by simp [hy])
    cases x with
    | sendT t m => simp [countEv, ih hxs]
    | doAction j b q => simp [BroadcastEvent.isSend] at hx

/-- Every event emitted by the bot half of `handle_bot_action` is a
`do_action` call. -/
theorem handleBotActionBots_isSend_false (action : BaseModerationAction)
    (source : BotRegistration) (bots : List BotRegistration) :
    ∀ e ∈ handleBotActionBots action source bots, e.isSend = false := by
  induction bots with
  | nil => intro e he; simp [handleBotActionBots] at he
  | cons b bs ih =>
    intro e he
    by_cases h : (b.running && !(b.id == source.id)) = true
    · simp [handleBotActionBots, h] at he
      rcases he with he | he
      · simp [he, BroadcastEvent.isSend]
      · exact ih e he
    · simp [handleBotActionBots, h] at he
      exact ih e he

/-- A bot id that does not occur in the registration list receives no
`do_action` call from the bot half of `handle_bot_action`. -/
theorem handleBotActionBots_count_zero (action : BaseModerationAction)
    (source : BotRegistration) (bots : List BotRegistration) (i : Nat)
    (hi : i ∉ bots.map BotRegistration.id) (a : BaseModerationAction) (p : Bool) :
    countEv (BroadcastEvent.doAction i a p) (handleBotActionBots action source bots) = 0 := by
  induction bots with
  | nil => rfl
  | cons b bs ih =>
    have hbi : b.id ≠ i := by
      intro h; exact hi (by simp [h])
    have hbs : i ∉ bs.map BotRegistration.id := by
      intro h; exact hi (by simp [h])
    by_cases h : (b.running && !(b.id == source.id)) = true
    · simp [handleBotActionBots, h, countEv, hbi, ih hbs]
    · simp [handleBotActionBots, h, ih hbs]

/-- The originating bot receives no `do_action` call from the bot half of
`handle_bot_action` (the `bot != source` guard). -/
theorem handleBotActionBots_source_zero (action : BaseModerationAction)
    (source : BotRegistration) (bots : List BotRegistration)
    (a : BaseModerationAction) (p : Bool) :
    countEv (BroadcastEvent.doAction source.id a p)
      (handleBotActionBots action source bots) = 0 := by
  induction bots with
  | nil => rfl
  | cons b bs ih =>
    by_cases h : (b.running && !(b.id == source.id)) = true
    · have hne : b.id ≠ source.id := by
        intro he
        simp [he] at h
      simp [handleBotActionBots, h, countEv, hne, ih]
    · simp [handleBotActionBots, h, ih]

/-- With pairwise-distinct bot identities, each running non-origin bot
receives exactly one `do_action(action, propogate=False)` call from the
bot half of `handle_bot_action`. -/
theorem handleBotActionBots_count_one (action : BaseModerationAction)
    (source : BotRegistration) (bots : List BotRegistration)
    (hids : (bots.map BotRegistration.id).Nodup) (b : BotRegistration)
    (hb : b ∈ bots) (hr : b.running = true) (hne : b.id ≠ source.id) :
    countEv (BroadcastEvent.doAction b.id action false)
      (handleBotActionBots action source bots) = 1 := by
  induction bots with
  | nil => simp at hb
  | cons c cs ih =>
    have hidc : c.id ∉ cs.map BotRegistration.id := (List.nodup_cons.mp (by simpa using hids)).1
    have hidcs : (cs.map BotRegistration.id).Nodup := (List.nodup_cons.mp (by simpa using hids)).2
    rcases List.mem_cons.mp hb with hbc | hbcs
    · subst hbc
      have hguard : (b.running && !(b.id == source.id)) = true := by
        simp [hr, hne]
      simp [handleBotActionBots, hguard, countEv,
        handleBotActionBots_count_zero action source cs b.id hidc action false]
    · have hbid : b.id ∈ cs.map BotRegistration.id := by
        exact List.mem_map.mpr ⟨b, hbcs, rfl⟩
      have hcb : c.id ≠ b.id := by
        intro h; rw [h] at hidc; exact hidc hbid
      by_cases h : (c.running && !(c.id == source.id)) = true
      · simp [handleBotActionBots, h, countEv, hcb, ih hidcs hbcs]
      · simp [handleBotActionBots, h, ih hidcs hbcs]

/-- When every transport that is enabled with SEND permitted is running,
the transport half of `handle_bot_action` raises nothing and produces
one send event per qualifying transport, in order. -/
theorem handleBotActionSends_ok (action : BaseModerationAction) (guild : String)
    (ts : List RegisteredTransport)
    (hrun : ∀ t ∈ ts, t.emt.enabled = true →
      MessageTransportFeatures.mem MessageTransportFeatures.SEND t.emt.enabled_features = true →
      t.emt.t_running = true) :
    ∃ sends, handleBotActionSends action guild ts = Except.ok sends
      ∧ (∀ e ∈ sends, e.isSend = true)
      ∧ ∀ t ∈ ts, t.emt.enabled = true →
          MessageTransportFeatures.mem MessageTransportFeatures.SEND t.emt.enabled_features = true →
          BroadcastEvent.sendT t.tid (FederatedActionMessage.mkDefault action guild) ∈ sends := by
  induction ts with
  | nil => exact ⟨[], rfl, by simp, by simp⟩
  | cons t ts ih =>
    have hrun' : ∀ u ∈ ts, u.emt.enabled = true →
        MessageTransportFeatures.mem MessageTransportFeatures.SEND u.emt.enabled_features = true →
        u.emt.t_running = true := fun u hu => hrun u (by simp [hu])
    obtain ⟨sends, hok, hsend, hmem⟩ := ih hrun'
    by_cases hg : (t.emt.enabled &&
        MessageTransportFeatures.mem MessageTransportFeatures.SEND t.emt.enabled_features) = true
    · obtain ⟨hen, hmemS⟩ : t.emt.enabled = true ∧
          MessageTransportFeatures.mem MessageTransportFeatures.SEND
            t.emt.enabled_features = true := by simpa using hg
      have hefsend : t.emt.enabled_features.send = true := by
        have := hmemS
        simp [MessageTransportFeatures.mem, MessageTransportFeatures.land,
          MessageTransportFeatures.SEND] at this
        exact this
      have hr : t.emt.t_running = true := hrun t (by simp) hen hmemS
      have hsendok : EnabledMessageTransport.send (fun _ => t.publishResult) t.emt
          (FederatedActionMessage.mkDefault action guild) = Except.ok t.publishResult := by
        simp [EnabledMessageTransport.send, hen, hefsend, MessageTransportFeatures.land,
          MessageTransportFeatures.SEND, MessageTransportFeatures.toBool,
          MessageTransport.send, hr]
      refine ⟨BroadcastEvent.sendT t.tid (FederatedActionMessage.mkDefault action guild)
          :: sends, ?_, ?_, ?_⟩
      · simp [handleBotActionSends, hg, hsendok, hok]
      · intro e he
        rcases List.mem_cons.mp he with he | he
        · simp [he, BroadcastEvent.isSend]
        · exact hsend e he
      · intro u hu hue hum
        rcases List.mem_cons.mp hu with hu | hu
        · subst hu; simp
        · exact List.mem_cons_of_mem _ (hmem u hu hue hum)
    · refine ⟨sends, ?_, hsend, ?_⟩
      · simp [handleBotActionSends, hg, hok]
      · intro u hu hue hum
        rcases List.mem_cons.mp hu with hu | hu
        · subst hu; exact absurd (by simp [hue, hum]) hg
        · exact hmem u hu hue hum

/-- Every event emitted by `handle_transport_message` is a `do_action`
call: nothing is re-sent to any transport. -/
theorem handle_transport_message_isSend_false (bots : List BotRegistration)
    (message : FederatedActionMessage) :
    ∀ e ∈ GooglyEyesInstance.handle_transport_message bots message, e.isSend = false := by
  induction bots with
  | nil => intro e he; simp [GooglyEyesInstance.handle_transport_message] at he
  | cons b bs ih =>
    intro e he
    by_cases h : b.running = true
    · simp [GooglyEyesInstance.handle_transport_message, h] at he
      rcases he with he | he
      · simp [he, BroadcastEvent.isSend]
      · exact ih e he
    · simp [GooglyEyesInstance.handle_transport_message, h] at he
      exact ih e he

/-- A bot id that does not occur in the registration list receives no
`do_action` call from `handle_transport_message`. -/
theorem handle_transport_message_count_zero (bots : List BotRegistration)
    (message : FederatedActionMessage) (i : Nat)
    (hi : i ∉ bots.map BotRegistration.id) (a : BaseModerationAction) (p : Bool) :
    countEv (BroadcastEvent.doAction i a p)
      (GooglyEyesInstance.handle_transport_message bots message) = 0 := by
  induction bots with
  | nil => rfl
  | cons b bs ih =>
    have hbi : b.id ≠ i := by
      intro h; exact hi (by simp [h])
    have hbs : i ∉ bs.map BotRegistration.id := by
      intro h; exact hi (by simp [h])
    by_cases h : b.running = true
    · simp [GooglyEyesInstance.handle_transport_message, h, countEv, hbi, ih hbs]
    · simp [GooglyEyesInstance.handle_transport_message, h, ih hbs]

/-- With pairwise-distinct bot identities, each running registered bot
receives exactly one `do_action(message.action, propogate=False)` call
from `handle_transport_message`. -/
theorem handle_transport_message_count_one (bots : List BotRegistration)
    (message : FederatedActionMessage)
    (hids : (bots.map BotRegistration.id).Nodup) (b : BotRegistration)
    (hb : b ∈ bots) (hr : b.running = true) :
    countEv (BroadcastEvent.doAction b.id message.action false)
      (GooglyEyesInstance.handle_transport_message bots message) = 1 := by
  induction bots with
  | nil => simp at hb
  | cons c cs ih =>
    have hidc : c.id ∉ cs.map BotRegistration.id := (List.nodup_cons.mp (by simpa using hids)).1
    have hidcs : (cs.map BotRegistration.id).Nodup := (List.nodup_cons.mp (by simpa using hids)).2
    rcases List.mem_cons.mp hb with hbc | hbcs
    · subst hbc
      simp [GooglyEyesInstance.handle_transport_message, hr, countEv,
        handle_transport_message_count_zero cs message b.id hidc message.action false]
    · have hbid : b.id ∈ cs.map BotRegistration.id := List.mem_map.mpr ⟨b, hbcs, rfl⟩
      have hcb : c.id ≠ b.id := by
        intro h; rw [h] at hidc; exact hidc hbid
      by_cases h : c.running = true
      · simp [GooglyEyesInstance.handle_transport_message, h, countEv, hcb, ih hidcs hbcs]
      · simp [GooglyEyesInstance.handle_transport_message, h, ih hidcs hbcs]

/-- C1: the claimed round-trip law `ActionFactory.from_json(a.to_json()) == a`
fails on the code for every constructible action; at the concrete WARN
action below, deserializing the serialized form yields an action whose
`action_timestamp` is the ISO-8601 string rather than the original
datetime, so the result is not field-for-field equal to the original
(and kind-specific payload fields are never serialized at all, see C3). -/
theorem C1_roundtrip_fails_at_warn_action :
    ActionFactory.create_action ModerationActionType.WARN demoWarnKwargs
        = Except.ok demoWarnAction
      ∧ roundTripAction demoWarnAction
        = Except.ok { demoWarnAction with
            action_timestamp := PyVal.str classDefaultTimestamp.iso }
      ∧ roundTripAction demoWarnAction ≠ Except.ok demoWarnAction := by
  refine ⟨by decide, by decide, by decide⟩

/-- C3: kind-specific required-field validation does not behave as
claimed.  Supplying the timeout duration to a TIMEOUT construction
raises `TypeError` (the subclasses are not dataclasses, so
`timeout_duration` is not an accepted parameter), while omitting it
succeeds with no `MissingField` error; an unrecognized kind does fail
(`KeyError` from the enum lookup in `from_dict`). -/
theorem C3_timeout_field_validation_inverted :
    ActionFactory.create_action ModerationActionType.TIMEOUT
        (demoWarnKwargs ++ [("timeout_duration", PyVal.int 60)])
        = Except.error PyError.typeError
      ∧ ActionFactory.create_action ModerationActionType.TIMEOUT demoWarnKwargs
        = Except.ok { demoWarnAction with
            cls := ModerationActionType.TIMEOUT,
            action_type := ModerationActionType.TIMEOUT }
      ∧ ActionFactory.from_dict
          [("action_type", PyVal.str "FROB"), ("target_user_id", PyVal.str "U1")]
        = Except.error PyError.keyError := by
  refine ⟨by decide, by decide, by decide⟩

/-- C4: two distinct `FederatedActionMessage` instances constructed
without an explicit message id receive the SAME `message_id`, because
the dataclass default `uuid4().hex` is evaluated once at class
definition time; the claimed per-instance uniqueness fails. -/
theorem C4_message_id_shared_across_instances :
    FederatedActionMessage.mkDefault demoWarnAction "G1"
        ≠ FederatedActionMessage.mkDefault demoWarnAction "G2"
      ∧ (FederatedActionMessage.mkDefault demoWarnAction "G1").message_id
        = (FederatedActionMessage.mkDefault demoWarnAction "G2").message_id := by
  refine ⟨by decide, rfl⟩

/-- C5: `start()` is idempotent as claimed for both contracts, and bot
`stop()` is too, but transport `stop()` is not: because the adapter
`_stop` returns `None`, the assignment `self._is_running = not
self._stop()` leaves the transport marked running, `stop()` returns
`False`, and a second `stop()` invokes the adapter `_stop` again
(`stop_calls` grows), instead of transitioning to stopped with a
side-effect-free second call. -/
theorem C5_transport_stop_breaks_idempotent_lifecycle :
    MessageTransport.start true ⟨false, 0, 0⟩ = (true, ⟨true, 1, 0⟩)
      ∧ MessageTransport.start true ⟨true, 1, 0⟩ = (true, ⟨true, 1, 0⟩)
      ∧ MessageTransport.stop Option.none ⟨true, 1, 0⟩ = (false, ⟨true, 1, 1⟩)
      ∧ MessageTransport.stop Option.none ⟨true, 1, 1⟩ = (false, ⟨true, 1, 2⟩)
      ∧ BotInterface.start true ⟨false, 0, 0⟩ = (true, ⟨true, 1, 0⟩)
      ∧ BotInterface.start true ⟨true, 1, 0⟩ = (true, ⟨true, 1, 0⟩)
      ∧ BotInterface.stop true ⟨true, 1, 0⟩ = (true, ⟨false, 1, 1⟩)
      ∧ BotInterface.stop true ⟨false, 1, 1⟩ = (true, ⟨false, 1, 1⟩) := by
  refine ⟨rfl, rfl, rfl, rfl, rfl, rfl, rfl, rfl⟩

/-- C6: on a wrapper whose transport does not advertise SEND, `send`
raises the not-enabled-for-sending `RuntimeError` even when the wrapper
is administratively enabled (given the API invariant that the permitted
subset lies inside the advertised set), and `enable_feature` on any
feature outside the advertised set raises `ValueError` leaving the
wrapper state unchanged. -/
theorem C6_feature_gating (publish : FederatedActionMessage → Bool)
    (s : EnabledMessageTransport) (msg : FederatedActionMessage)
    (f : MessageTransportFeatures)
    (hAvail : s.available.send = false)
    (hSub : MessageTransportFeatures.mem s.enabled_features s.available = true)
    (hEn : s.enabled = true)
    (hF : feature_is_available s.available f = false) :
    EnabledMessageTransport.send publish s msg
        = Except.error (PyError.runtimeError "Transport is not enabled for sending.")
      ∧ EnabledMessageTransport.enable_feature s f
        = (s, Option.some (PyError.valueError "Feature not available in transport.")) := by
  have hefsend : s.enabled_features.send = false := by
    have h1 : s.enabled_features.land s.available = s.enabled_features := by
      simpa [MessageTransportFeatures.mem] using hSub
    have h2 := congrArg MessageTransportFeatures.send h1
    simpa [MessageTransportFeatures.land, hAvail] using h2.symm
  constructor
  · simp [EnabledMessageTransport.send, hEn, hefsend, MessageTransportFeatures.land,
      MessageTransportFeatures.SEND, MessageTransportFeatures.toBool]
  · simp [EnabledMessageTransport.enable_feature, hF]

/-- An enabled wrapper around a RECEIVE-only transport with RECEIVE
permitted, as the intended API produces it. -/
def recvOnlyEMT : EnabledMessageTransport :=
  { enabled := true, enabled_features := MessageTransportFeatures.RECEIVE,
    available := MessageTransportFeatures.RECEIVE, t_running := true }

/-- Witness for C6 at a concrete RECEIVE-only enabled transport and the
SEND feature. -/
theorem C6_feature_gating_witness :
    recvOnlyEMT.available.send = false
      ∧ MessageTransportFeatures.mem recvOnlyEMT.enabled_features recvOnlyEMT.available = true
      ∧ recvOnlyEMT.enabled = true
      ∧ feature_is_available recvOnlyEMT.available MessageTransportFeatures.SEND = false
      ∧ (EnabledMessageTransport.send (fun _ => true) recvOnlyEMT demoMsg
          = Except.error (PyError.runtimeError "Transport is not enabled for sending.")
        ∧ EnabledMessageTransport.enable_feature recvOnlyEMT MessageTransportFeatures.SEND
          = (recvOnlyEMT,
             Option.some (PyError.valueError "Feature not available in transport."))) :=
  ⟨by decide, by decide, by decide, by decide,
   C6_feature_gating (fun _ => true) recvOnlyEMT demoMsg MessageTransportFeatures.SEND
     (by decide) (by decide) (by decide) (by decide)⟩

/-- C7: `MessageTransport.send` fails with the not-running `RuntimeError`
exactly when the transport is not running, and otherwise returns the
adapter publish result; for every message value the only possible error
is the not-running one. -/
theorem C7_send_not_running_iff (publish : FederatedActionMessage → Bool)
    (r : Bool) (msg : FederatedActionMessage) :
    (MessageTransport.send publish r msg
        = Except.error (PyError.runtimeError "Transport system is not running.")
      ↔ r = false)
      ∧ (MessageTransport.send publish r msg = Except.ok (publish msg) ↔ r = true) := by
  cases r <;> simp [MessageTransport.send]

/-- C2: when a registered bot reports a locally originated action,
`handle_bot_action` emits a trace consisting of all transport sends
first (one per transport that is enabled with SEND permitted) and only
then the bot re-invocations; every other running registered bot receives
exactly one `do_action(action, propogate=False)` call and the
originating bot receives none.  Hypotheses: bot ids are pairwise
distinct (Python object identities always are) and every enabled
SEND-permitted transport is running (the started-system precondition,
since an unstarted transport's `send` raises and aborts the handler). -/
theorem C2_handle_bot_action_broadcast (transports : List RegisteredTransport)
    (bots : List BotRegistration) (source : BotRegistration)
    (action : BaseModerationAction)
    (hids : (bots.map BotRegistration.id).Nodup)
    (hrun : ∀ t ∈ transports, t.emt.enabled = true →
      MessageTransportFeatures.mem MessageTransportFeatures.SEND t.emt.enabled_features = true →
      t.emt.t_running = true) :
    ∃ sends botEvts,
      GooglyEyesInstance.handle_bot_action transports bots source action
          = Except.ok (sends ++ botEvts)
        ∧ (∀ e ∈ sends, e.isSend = true)
        ∧ (∀ e ∈ botEvts, e.isSend = false)
        ∧ (∀ t ∈ transports, t.emt.enabled = true →
            MessageTransportFeatures.mem MessageTransportFeatures.SEND
              t.emt.enabled_features = true →
            BroadcastEvent.sendT t.tid (FederatedActionMessage.mkDefault action source.name)
              ∈ sends)
        ∧ (∀ b ∈ bots, b.running = true → b.id ≠ source.id →
            countEv (BroadcastEvent.doAction b.id action false) (sends ++ botEvts) = 1)
        ∧ (∀ a p, countEv (BroadcastEvent.doAction source.id a p) (sends ++ botEvts) = 0) := by
  obtain ⟨sends, hok, hsend, hmem⟩ := handleBotActionSends_ok action source.name transports hrun
  refine ⟨sends, handleBotActionBots action source bots, ?_, hsend, ?_, hmem, ?_, ?_⟩
  · simp [GooglyEyesInstance.handle_bot_action, hok]
  · exact handleBotActionBots_isSend_false action source bots
  · intro b hb hr hne
    rw [countEv_append, countEv_doAction_zero_of_isSend b.id action false sends hsend,
      handleBotActionBots_count_one action source bots hids b hb hr hne]
  · intro a p
    rw [countEv_append, countEv_doAction_zero_of_isSend source.id a p sends hsend,
      handleBotActionBots_source_zero action source bots a p]

/-- Concrete transport list for the C2 witness: one enabled
SEND_RECEIVE transport whose underlying transport is running. -/
def demoTransports : List RegisteredTransport :=
  [{ tid := 0,
     emt := { enabled := true,
              enabled_features := MessageTransportFeatures.SEND_RECEIVE,
              available := MessageTransportFeatures.SEND_RECEIVE, t_running := true },
     publishResult := true }]

/-- Concrete bot list for the C2 and C9 witnesses: two running bots with
distinct identities. -/
def demoBots : List BotRegistration :=
  [{ id := 1, name := "A", running := true }, { id := 2, name := "B", running := true }]

/-- Witness for C2 at the concrete two-bot, one-transport instance with
bot A as the origin. -/
theorem C2_handle_bot_action_broadcast_witness :
    (demoBots.map BotRegistration.id).Nodup
      ∧ (∀ t ∈ demoTransports, t.emt.enabled = true →
          MessageTransportFeatures.mem MessageTransportFeatures.SEND
            t.emt.enabled_features = true →
          t.emt.t_running = true)
      ∧ ∃ sends botEvts,
          GooglyEyesInstance.handle_bot_action demoTransports demoBots
              { id := 1, name := "A", running := true } demoWarnAction
            = Except.ok (sends ++ botEvts)
          ∧ (∀ e ∈ sends, e.isSend = true)
          ∧ (∀ e ∈ botEvts, e.isSend = false)
          ∧ (∀ t ∈ demoTransports, t.emt.enabled = true →
              MessageTransportFeatures.mem MessageTransportFeatures.SEND
                t.emt.enabled_features = true →
              BroadcastEvent.sendT t.tid (FederatedActionMessage.mkDefault demoWarnAction "A")
                ∈ sends)
          ∧ (∀ b ∈ demoBots, b.running = true → b.id ≠ 1 →
              countEv (BroadcastEvent.doAction b.id demoWarnAction false)
                (sends ++ botEvts) = 1)
          ∧ (∀ a p, countEv (BroadcastEvent.doAction 1 a p) (sends ++ botEvts) = 0) :=
  ⟨by decide, by decide,
   C2_handle_bot_action_broadcast demoTransports demoBots
     { id := 1, name := "A", running := true } demoWarnAction (by decide) (by decide)⟩

/-- C8: `add_transport` called without an explicit feature set raises the
invalid-features `ValueError` instead of succeeding with all advertised
features (the leading `isinstance` guard rejects the `None` default, so
the all-advertised branch is dead); with an explicit feature set, the
router's dispatch method is wired as the receive callback even when
RECEIVE is not permitted; a non-subset feature request does fail with
the feature-unavailable `ValueError`. -/
theorem C8_add_transport_guard_and_wiring :
    GooglyEyesInstance.add_transport MessageTransportFeatures.SEND_RECEIVE Option.none true
        = Except.error (PyError.valueError "Invalid features type.")
      ∧ GooglyEyesInstance.add_transport MessageTransportFeatures.SEND_RECEIVE
          (Option.some MessageTransportFeatures.SEND) true
        = Except.ok { emt := { enabled := true,
                               enabled_features := MessageTransportFeatures.SEND,
                               available := MessageTransportFeatures.SEND_RECEIVE,
                               t_running := false },
                      receive_callback_set := true }
      ∧ MessageTransportFeatures.mem MessageTransportFeatures.RECEIVE
          MessageTransportFeatures.SEND = false
      ∧ GooglyEyesInstance.add_transport MessageTransportFeatures.SEND
          (Option.some MessageTransportFeatures.SEND_RECEIVE) true
        = Except.error (PyError.valueError "Feature not available in transport.") := by
  refine ⟨rfl, by decide, by decide, by decide⟩

/-- C9: when a transport delivers an inbound federated message,
`handle_transport_message` gives every running registered bot exactly
one `do_action(message.action, propogate=False)` call and emits no
transport send at all; bot ids are assumed pairwise distinct (Python
object identities always are). -/
theorem C9_handle_transport_message_broadcast (bots : List BotRegistration)
    (message : FederatedActionMessage)
    (hids : (bots.map BotRegistration.id).Nodup) :
    (∀ b ∈ bots, b.running = true →
        countEv (BroadcastEvent.doAction b.id message.action false)
          (GooglyEyesInstance.handle_transport_message bots message) = 1)
      ∧ ∀ e ∈ GooglyEyesInstance.handle_transport_message bots message,
          e.isSend = false := by
  refine ⟨?_, handle_transport_message_isSend_false bots message⟩
  intro b hb hr
  exact handle_transport_message_count_one bots message hids b hb hr

/-- Witness for C9 at the concrete two-running-bot instance and the demo
message. -/
theorem C9_handle_transport_message_broadcast_witness :
    (demoBots.map BotRegistration.id).Nodup
      ∧ ((∀ b ∈ demoBots, b.running = true →
            countEv (BroadcastEvent.doAction b.id demoMsg.action false)
              (GooglyEyesInstance.handle_transport_message demoBots demoMsg) = 1)
        ∧ ∀ e ∈ GooglyEyesInstance.handle_transport_message demoBots demoMsg,
            e.isSend = false) :=
  ⟨by decide, C9_handle_transport_message_broadcast demoBots demoMsg (by decide)⟩

/-- C10: `_message_received` raises the callback-not-set `ValueError`
when no receive callback has ever been registered, and any successful
delivery schedules exactly the registered callback on the message: a
message reaches a callback only when one has been registered. -/
theorem C10_message_received_requires_callback (s : ReceiverState)
    (msg : FederatedActionMessage) :
    (s.receive_callback = Option.none →
        MessageTransport.message_received s msg
          = Except.error (PyError.valueError "Receive callback not set."))
      ∧ ∀ evts, MessageTransport.message_received s msg = Except.ok evts →
          ∃ cb, s.receive_callback = Option.some cb
            ∧ evts = [DeliveryEvent.scheduled cb msg] := by
  rcases s with ⟨cb, loop⟩
  cases cb <;> cases loop <;>
    simp [MessageTransport.message_received]

/-- Witness for C10: a never-wired transport rejects an inbound message,
and a wired, started transport schedules its callback on it. -/
theorem C10_message_received_requires_callback_witness :
    ((⟨Option.none, Option.some ()⟩ : ReceiverState).receive_callback = Option.none
      ∧ MessageTransport.message_received ⟨Option.none, Option.some ()⟩ demoMsg
        = Except.error (PyError.valueError "Receive callback not set."))
      ∧ (MessageTransport.message_received ⟨Option.some 7, Option.some ()⟩ demoMsg
          = Except.ok [DeliveryEvent.scheduled 7 demoMsg]
        ∧ ∃ cb, (⟨Option.some 7, Option.some ()⟩ : ReceiverState).receive_callback
              = Option.some cb
            ∧ [DeliveryEvent.scheduled 7 demoMsg] = [DeliveryEvent.scheduled cb demoMsg]) :=
  ⟨⟨rfl, (C10_message_received_requires_callback ⟨Option.none, Option.some ()⟩ demoMsg).1 rfl⟩,
   ⟨rfl, (C10_message_received_requires_callback ⟨Option.some 7, Option.some ()⟩ demoMsg).2
      [DeliveryEvent.scheduled 7 demoMsg] rfl⟩⟩
